import Mathlib

/-!
Verification of the reactive dashboard in `src/app.py` (a Shiny Express app
over the Palmer Penguins dataset).  The application code declares four input
cells, one reactive calc (`filtered_data`) and four rendering sinks
(`plot1`, `plot2`, `plotly_scatterplot`, `seaborn_histogram`).  The reactive
engine itself (cells with versions, dynamic dependency tracking, dirty
marking, batched invalidation, memoization, error caching) is provided by the
framework and is modelled here from the specification; the concrete
evaluators, the declared input constraints and the dependency structure are
translated from `src/app.py`.
-/

namespace PenguinApp

/-- A row of the penguin dataset.  The dataset is loaded externally
(`palmerpenguins.load_penguins()`, src/app.py line 44) and treated as an
opaque immutable table; only the `species` column is ever inspected by the
app's own code (the scatterplot filter, src/app.py line 156). -/
structure Penguin where
  species : String
  island : String
  bill_length_mm : Int
  bill_depth_mm : Int
  flipper_length_mm : Int
  body_mass_g : Int
  sex : String
deriving DecidableEq, Repr

/-- Identifiers of the four input cells declared in the sidebar of
src/app.py (lines 79, 87, 97, 107). -/
inductive CellId where
  | selected_attribute
  | plotly_bin_count
  | seaborn_bin_count
  | selected_species_list
deriving DecidableEq, Repr

/-- Runtime values a cell can hold. -/
inductive Value where
  | str (s : String)
  | int (n : Int)
  | strList (l : List String)
deriving DecidableEq, Repr

/-- Choice list of the `selected_attribute` selectize input
(src/app.py lines 79-81). -/
def attributeChoices : List String :=
  ["bill_length_mm", "bill_depth_mm", "flipper_length_mm", "body_mass_g"]

/-- Choice list of the `selected_species_list` checkbox group
(src/app.py line 107). -/
def speciesChoices : List String := ["Adelie", "Chinstrap", "Gentoo"]

/-- Errors of the reactive core.  Modelled from the spec's error taxonomy
(InvalidInputError, CycleError, EvaluationError). -/
inductive RError where
  | invalidInputError
  | cycleError
  | evaluationError (msg : String)
deriving DecidableEq, Repr

/-- The four cells' current values and per-cell versions.  Default values
are the ones declared in src/app.py: the first selectize choice, numeric
value 20 (line 87), slider value 10 (line 97) and selected species
["Adelie"] (line 107). -/
structure CellStore where
  selected_attribute : String
  plotly_bin_count : Int
  seaborn_bin_count : Int
  selected_species_list : List String
  verAttr : Nat
  verPBin : Nat
  verSBin : Nat
  verSpecies : Nat
deriving DecidableEq, Repr

/-- Declared constraints of each cell, from the widget declarations in
src/app.py: the selectize has an enumerated choice list (line 79), the
numeric input `plotly_bin_count` declares a type but no bounds (line 87),
the slider `seaborn_bin_count` declares min=2 and max=20 (line 97), and the
checkbox group admits sublists of its choice list (line 107). -/
def cellValid : CellId → Value → Bool
  | .selected_attribute, .str a => attributeChoices.contains a
  | .plotly_bin_count, .int _ => true
  | .seaborn_bin_count, .int n => decide (2 ≤ n) && decide (n ≤ 20)
  | .selected_species_list, .strList l => l.all (fun x => speciesChoices.contains x)
  | _, _ => false

/-- Store a validated value into its cell and bump that cell's version. -/
def commitCell (cs : CellStore) : CellId → Value → CellStore
  | .selected_attribute, .str a => { cs with selected_attribute := a, verAttr := cs.verAttr + 1 }
  | .plotly_bin_count, .int n => { cs with plotly_bin_count := n, verPBin := cs.verPBin + 1 }
  | .seaborn_bin_count, .int n => { cs with seaborn_bin_count := n, verSBin := cs.verSBin + 1 }
  | .selected_species_list, .strList l => { cs with selected_species_list := l, verSpecies := cs.verSpecies + 1 }
  | _, _ => cs

/-- Modelled from the spec: `set(newValue)` validates the value against the
cell's declared constraints; on success it stores the value and increments
the cell's version, on failure it fails with `InvalidInputError` and
produces no new state (the caller keeps the unchanged store). -/
def setCell (cs : CellStore) (c : CellId) (v : Value) : Except RError CellStore :=
  if cellValid c v then Except.ok (commitCell cs c v)
  else Except.error RError.invalidInputError

/-- Current value of a cell, as a `Value`. -/
def cellValue (cs : CellStore) : CellId → Value
  | .selected_attribute => .str cs.selected_attribute
  | .plotly_bin_count => .int cs.plotly_bin_count
  | .seaborn_bin_count => .int cs.seaborn_bin_count
  | .selected_species_list => .strList cs.selected_species_list

/-- Current version of a cell. -/
def cellVersion (cs : CellStore) : CellId → Nat
  | .selected_attribute => cs.verAttr
  | .plotly_bin_count => cs.verPBin
  | .seaborn_bin_count => cs.verSBin
  | .selected_species_list => cs.verSpecies

/-- Initial cell store: the declared default of each widget in src/app.py. -/
def initCells : CellStore :=
  { selected_attribute := "bill_length_mm"
    plotly_bin_count := 20
    seaborn_bin_count := 10
    selected_species_list := ["Adelie"]
    verAttr := 0, verPBin := 0, verSBin := 0, verSpecies := 0 }

/-- Rendered artifacts, as symbolic descriptions of the chart calls made in
src/app.py: the plotly histogram of `plot1` (lines 131-136), the seaborn
histogram of `plot2` (lines 144-148) and `seaborn_histogram` (lines
187-191), the plotly scatter of `plotly_scatterplot` (lines 158-168), and
the plain dataframe value of the reactive calc `filtered_data` (line 183). -/
inductive Artifact where
  | dataFrame (rows : List Penguin)
  | plotlyHistogram (rows : List Penguin) (x : String) (nbins : Int)
      (title : String) (yaxisTitle : String) (xaxisTitle : String)
  | seabornHistogram (rows : List Penguin) (x : String) (bins : Int)
      (title : String) (xlabel : String) (ylabel : String)
  | plotlyScatter (rows : List Penguin) (x : String) (y : String)
      (color : String) (symbol : String)
deriving DecidableEq, Repr

/-- A reactive source: one of the four cells, or the computed node
`filtered_data` (the only reactive calc in src/app.py). -/
inductive Source where
  | cell (c : CellId)
  | fdNode
deriving DecidableEq, Repr

instance instDecEqExceptRA : DecidableEq (Except RError Artifact) := fun x y =>
  match x, y with
  | .ok a, .ok b =>
      if h : a = b then isTrue (by rw [h])
      else isFalse (by intro hc; cases hc; exact h rfl)
  | .ok _, .error _ => isFalse (by intro hc; cases hc)
  | .error _, .ok _ => isFalse (by intro hc; cases hc)
  | .error a, .error b =>
      if h : a = b then isTrue (by rw [h])
      else isFalse (by intro hc; cases hc; exact h rfl)

/-- Per-node reactive bookkeeping.  Modelled from the spec's Computed Node
data model: cached value or captured error, cached-at version stamps for
each recorded dependency, dirty flag, and the node's own version; an
evaluation counter instruments how often the evaluator actually ran. -/
structure NodeState where
  cached : Option (Except RError Artifact)
  stamps : List (Source × Nat)
  dirty : Bool
  evalCount : Nat
  nver : Nat
deriving DecidableEq, Repr

/-- The recorded dependency set of a node: the sources of its stamps. -/
def depsOf (n : NodeState) : List Source := n.stamps.map Prod.fst

/-- A node that has never been evaluated: no cache, no dependencies, dirty. -/
def initNode : NodeState :=
  { cached := none, stamps := [], dirty := true, evalCount := 0, nver := 0 }

/-- Whole-session reactive state: the cell store plus the bookkeeping of the
reactive calc `filtered_data` and the four sinks of src/app.py. -/
structure SessionState where
  cells : CellStore
  filtered_data : NodeState
  plot1 : NodeState
  plot2 : NodeState
  plotly_scatterplot : NodeState
  seaborn_histogram : NodeState
deriving DecidableEq, Repr

/-- Session state at startup: default cell values, nothing evaluated yet. -/
def initState : SessionState :=
  { cells := initCells
    filtered_data := initNode
    plot1 := initNode
    plot2 := initNode
    plotly_scatterplot := initNode
    seaborn_histogram := initNode }

/-- Current version of a source (a cell's version, or the node version of
`filtered_data`). -/
def sourceVersion (s : SessionState) : Source → Nat
  | .cell c => cellVersion s.cells c
  | .fdNode => s.filtered_data.nver

/-- Modelled from the spec: a cached value is valid for read iff the node is
not dirty, a cached result exists, and every recorded dependency's current
version equals its cached-at version. -/
def cacheValid (s : SessionState) (n : NodeState) : Bool :=
  !n.dirty && n.cached.isSome &&
    n.stamps.all (fun p => sourceVersion s p.1 == p.2)

/-- Modelled from the spec: committing an evaluation replaces the node's
dependency set with exactly the sources read during this run, snapshots each
dependency's current version, stores the result (value or captured error),
clears dirty, counts the evaluator invocation, and on success bumps the
node's own version. -/
def commitEval (s : SessionState) (n : NodeState)
    (r : Except RError Artifact) (reads : List Source) : NodeState :=
  { cached := some r
    stamps := reads.map (fun src => (src, sourceVersion s src))
    dirty := false
    evalCount := n.evalCount + 1
    nver := match r with | .ok _ => n.nver + 1 | .error _ => n.nver }

/-- Modelled from the spec: invalidation marking.  A node is marked dirty
when its recorded dependency set meets the batch's mutated cells, or depends
on `filtered_data` when `filtered_data` itself was invalidated (transitive
marking through the only intermediate node of the app). -/
def hitSource (csrcs : List Source) (fdHit : Bool) (src : Source) : Bool :=
  csrcs.contains src || (src == Source.fdNode && fdHit)

/-- Modelled from the spec: after all of a batch's mutations are applied,
the scheduler walks the dependency graph once and marks every transitive
dependent of a mutated cell dirty. -/
def markDirty (s : SessionState) (changed : List CellId) : SessionState :=
  let csrcs := changed.map Source.cell
  let fdHit := (depsOf s.filtered_data).any (fun src => csrcs.contains src)
  let touch := fun (n : NodeState) =>
    if (depsOf n).any (hitSource csrcs fdHit) then { n with dirty := true } else n
  { s with
    filtered_data := touch s.filtered_data
    plot1 := touch s.plot1
    plot2 := touch s.plot2
    plotly_scatterplot := touch s.plotly_scatterplot
    seaborn_histogram := touch s.seaborn_histogram }

/-- Modelled from the spec: a batch applies all of its `set` calls (a set
that fails validation mutates nothing and contributes no invalidation), then
marks all transitive dependents of the successfully mutated cells dirty,
before any dependent is next read. -/
def runBatch (s : SessionState) (writes : List (CellId × Value)) : SessionState :=
  let step := fun (acc : CellStore × List CellId) (w : CellId × Value) =>
    match setCell acc.1 w.1 w.2 with
    | .ok cs => (cs, w.1 :: acc.2)
    | .error _ => acc
  let r := writes.foldl step (s.cells, [])
  markDirty { s with cells := r.1 } r.2

/-- From src/app.py lines 181-183: the reactive calc `filtered_data` simply
returns `penguin_df`; its body reads no reactive source, so the recorded
read log of a run is empty. -/
def fdEvaluator (df : List Penguin) : Artifact × List Source :=
  (Artifact.dataFrame df, [])

/-- From src/app.py lines 130-136: `plot1` builds
`px.histogram(penguin_df, x=selected_attribute, nbins=plotly_bin_count)`
with title "Penguins", y-axis "count" and x-axis the selected attribute.
Modelled from the spec: the external histogram render function raises
(an `EvaluationError`) when the bin count is below 2. -/
def plot1Render (df : List Penguin) (attr : String) (nbins : Int) :
    Except RError Artifact :=
  if nbins < 2 then Except.error (RError.evaluationError "histogram bin count below 2")
  else Except.ok (Artifact.plotlyHistogram df attr nbins "Penguins" "count" attr)

/-- From src/app.py lines 143-148: `plot2` builds
`sns.histplot(penguin_df, x=selected_attribute, bins=seaborn_bin_count)`
with title "Penguins", x-label the selected attribute and y-label "Count".
Modelled from the spec: the histogram render raises when bins < 2. -/
def plot2Render (df : List Penguin) (attr : String) (bins : Int) :
    Except RError Artifact :=
  if bins < 2 then Except.error (RError.evaluationError "histogram bin count below 2")
  else Except.ok (Artifact.seabornHistogram df attr bins "Penguins" attr "Count")

/-- From src/app.py lines 153-168: `plotly_scatterplot` filters the dataset
to the rows whose species is in `selected_species_list` and builds
`px.scatter` on the filtered frame with x=bill_length_mm, y=bill_depth_mm,
color=island, symbol=species.  The scatter render is total: it succeeds on
any dataframe, including the empty one. -/
def plotly_scatterplotRender (df : List Penguin) (species : List String) :
    Except RError Artifact :=
  Except.ok (Artifact.plotlyScatter
    (df.filter (fun p => species.contains p.species))
    "bill_length_mm" "bill_depth_mm" "island" "species")

/-- From src/app.py lines 186-191: `seaborn_histogram` builds
`sns.histplot(filtered_data(), x="body_mass_g", bins=seaborn_bin_count)`
with title "Palmer Penguins", x-label "Mass (g)" and y-label "Count".
Modelled from the spec: the histogram render raises when bins < 2. -/
def seaborn_histogramRender (fd : List Penguin) (bins : Int) :
    Except RError Artifact :=
  if bins < 2 then Except.error (RError.evaluationError "histogram bin count below 2")
  else Except.ok (Artifact.seabornHistogram fd "body_mass_g" bins
    "Palmer Penguins" "Mass (g)" "Count")

/-- The rows of a dataframe artifact. -/
def dfRows : Artifact → List Penguin
  | .dataFrame rows => rows
  | _ => []

/-- Modelled from the spec: reading the computed node `filtered_data`
returns the cached value when it is valid and otherwise runs the evaluator
(src/app.py line 183) and commits the result with its (empty) read log. -/
def readFiltered (df : List Penguin) (s : SessionState) : SessionState :=
  if cacheValid s s.filtered_data then s
  else
    let n := commitEval s s.filtered_data
      (Except.ok (fdEvaluator df).1) (fdEvaluator df).2
    { s with filtered_data := n }

/-- Modelled from the spec: pull-rendering the sink `plot1`.  A valid cache
is returned as is; otherwise the render function runs, reading the cells
`selected_attribute` and `plotly_bin_count` (src/app.py lines 133-135),
and the result — value or captured error — is committed. -/
def renderPlot1 (df : List Penguin) (s : SessionState) : SessionState :=
  if cacheValid s s.plot1 then s
  else
    let n := commitEval s s.plot1
      (plot1Render df s.cells.selected_attribute s.cells.plotly_bin_count)
      [Source.cell CellId.selected_attribute, Source.cell CellId.plotly_bin_count]
    { s with plot1 := n }

/-- Modelled from the spec: pull-rendering the sink `plot2`, which reads the
cells `selected_attribute` and `seaborn_bin_count` (src/app.py line 144). -/
def renderPlot2 (df : List Penguin) (s : SessionState) : SessionState :=
  if cacheValid s s.plot2 then s
  else
    let n := commitEval s s.plot2
      (plot2Render df s.cells.selected_attribute s.cells.seaborn_bin_count)
      [Source.cell CellId.selected_attribute, Source.cell CellId.seaborn_bin_count]
    { s with plot2 := n }

/-- Modelled from the spec: pull-rendering the sink `plotly_scatterplot`,
which reads only the cell `selected_species_list` (src/app.py line 155). -/
def renderScatter (df : List Penguin) (s : SessionState) : SessionState :=
  if cacheValid s s.plotly_scatterplot then s
  else
    let n := commitEval s s.plotly_scatterplot
      (plotly_scatterplotRender df s.cells.selected_species_list)
      [Source.cell CellId.selected_species_list]
    { s with plotly_scatterplot := n }

/-- Modelled from the spec: pull-rendering the sink `seaborn_histogram`,
which reads the computed node `filtered_data` (triggering its lazy
evaluation) and the cell `seaborn_bin_count` (src/app.py line 187); a
captured failure of the computed node is re-raised to this reader. -/
def renderSeabornHist (df : List Penguin) (s : SessionState) : SessionState :=
  if cacheValid s s.seaborn_histogram then s
  else
    let s1 := readFiltered df s
    let r := match s1.filtered_data.cached with
      | some (Except.ok a) => seaborn_histogramRender (dfRows a) s1.cells.seaborn_bin_count
      | some (Except.error e) => Except.error e
      | none => Except.error (RError.evaluationError "filtered_data unavailable")
    let n := commitEval s1 s1.seaborn_histogram r
      [Source.fdNode, Source.cell CellId.seaborn_bin_count]
    { s1 with seaborn_histogram := n }

/-- The display layer's settle pass: after a batch, each visible panel is
pull-rendered once (the dashboard is pull-on-request per visible panel). -/
def settleAll (df : List Penguin) (s : SessionState) : SessionState :=
  renderSeabornHist df (renderScatter df (renderPlot2 df (renderPlot1 df s)))

/-- Closed form of the session after the initial settle pass: every panel
rendered once against the default cell values. -/
def settled0 (df : List Penguin) : SessionState :=
  { cells := initCells
    filtered_data :=
      { cached := some (Except.ok (Artifact.dataFrame df))
        stamps := [], dirty := false, evalCount := 1, nver := 1 }
    plot1 :=
      { cached := some (Except.ok (Artifact.plotlyHistogram df "bill_length_mm" 20
          "Penguins" "count" "bill_length_mm"))
        stamps := [(Source.cell CellId.selected_attribute, 0),
                   (Source.cell CellId.plotly_bin_count, 0)]
        dirty := false, evalCount := 1, nver := 1 }
    plot2 :=
      { cached := some (Except.ok (Artifact.seabornHistogram df "bill_length_mm" 10
          "Penguins" "bill_length_mm" "Count"))
        stamps := [(Source.cell CellId.selected_attribute, 0),
                   (Source.cell CellId.seaborn_bin_count, 0)]
        dirty := false, evalCount := 1, nver := 1 }
    plotly_scatterplot :=
      { cached := some (Except.ok (Artifact.plotlyScatter
          (df.filter (fun p => (["Adelie"] : List String).contains p.species))
          "bill_length_mm" "bill_depth_mm" "island" "species"))
        stamps := [(Source.cell CellId.selected_species_list, 0)]
        dirty := false, evalCount := 1, nver := 1 }
    seaborn_histogram :=
      { cached := some (Except.ok (Artifact.seabornHistogram df "body_mass_g" 10
          "Palmer Penguins" "Mass (g)" "Count"))
        stamps := [(Source.fdNode, 1), (Source.cell CellId.seaborn_bin_count, 0)]
        dirty := false, evalCount := 1, nver := 1 } }

set_option maxHeartbeats 1000000 in
theorem settleAll_init (df : List Penguin) : settleAll df initState = settled0 df := rfl

/-- Closed form of the session after the settled start is followed by a
batch that sets `plotly_bin_count` to 30 and the panels settle again: only
`plot1` re-renders. -/
def settled1 (df : List Penguin) : SessionState :=
  { settled0 df with
    cells := { initCells with plotly_bin_count := 30, verPBin := 1 }
    plot1 :=
      { cached := some (Except.ok (Artifact.plotlyHistogram df "bill_length_mm" 30
          "Penguins" "count" "bill_length_mm"))
        stamps := [(Source.cell CellId.selected_attribute, 0),
                   (Source.cell CellId.plotly_bin_count, 1)]
        dirty := false, evalCount := 2, nver := 2 } }

set_option maxHeartbeats 1000000 in
theorem settleAll_batch30 (df : List Penguin) :
    settleAll df (runBatch (settled0 df) [(CellId.plotly_bin_count, Value.int 30)]) =
      settled1 df := rfl

/-- C1: in the dashboard scenario (attribute cell "bill_length_mm", plotly
bin-count cell 20 — the settled defaults), changing the bin-count cell to 30
in a single batch makes the histogram sink `plot1`, which reads both cells,
re-render exactly once, while `plotly_scatterplot`, which reads neither
cell, is rendered zero additional times and its artifact is unchanged. -/
theorem claim_C1 (df : List Penguin) :
    (settleAll df (runBatch (settleAll df initState)
        [(CellId.plotly_bin_count, Value.int 30)])).plot1.evalCount
      = (settleAll df initState).plot1.evalCount + 1 ∧
    (settleAll df (runBatch (settleAll df initState)
        [(CellId.plotly_bin_count, Value.int 30)])).plot1.cached
      = some (plot1Render df "bill_length_mm" 30) ∧
    (settleAll df (runBatch (settleAll df initState)
        [(CellId.plotly_bin_count, Value.int 30)])).plotly_scatterplot.evalCount
      = (settleAll df initState).plotly_scatterplot.evalCount ∧
    (settleAll df (runBatch (settleAll df initState)
        [(CellId.plotly_bin_count, Value.int 30)])).plotly_scatterplot.cached
      = (settleAll df initState).plotly_scatterplot.cached := by
  rw [settleAll_init, settleAll_batch30]
  exact ⟨rfl, rfl, rfl, rfl⟩

/-- C2: reading the computed node `filtered_data` twice with no intervening
writes invokes its evaluator exactly once — the second read is a no-op that
returns the cached value, and when the cache was not valid before the first
read the evaluator runs exactly once during it. -/
theorem claim_C2 (df : List Penguin) (s : SessionState) :
    readFiltered df (readFiltered df s) = readFiltered df s ∧
    (cacheValid s s.filtered_data = false →
      (readFiltered df s).filtered_data.evalCount = s.filtered_data.evalCount + 1) := by
  constructor
  · by_cases h : cacheValid s s.filtered_data = true
    · simp [readFiltered, h]
    · have h0 : cacheValid s s.filtered_data = false := by
        cases hb : cacheValid s s.filtered_data
        · rfl
        · exact absurd hb h
      have h1 : readFiltered df s =
          { s with filtered_data :=
              commitEval s s.filtered_data (Except.ok (fdEvaluator df).1) (fdEvaluator df).2 } := by
        simp [readFiltered, h0]
      rw [h1]
      simp [readFiltered, cacheValid, commitEval, fdEvaluator]
  · intro h
    simp [readFiltered, h, commitEval]

/-- Closed witness for C2 at the initial session state. -/
theorem claim_C2_witness :
    readFiltered [] (readFiltered [] initState) = readFiltered [] initState ∧
    (readFiltered [] initState).filtered_data.evalCount
      = initState.filtered_data.evalCount + 1 :=
  ⟨(claim_C2 [] initState).1, (claim_C2 [] initState).2 (by decide)⟩

/-- C7: after an evaluation is committed, the node's recorded dependency set
is exactly the list of sources read during that run (stale entries from an
earlier run are dropped wholesale); in particular `filtered_data`, whose
evaluator reads no reactive source, has an empty dependency set after any
evaluation. -/
theorem claim_C7 :
    (∀ (s : SessionState) (n : NodeState) (r : Except RError Artifact)
        (reads : List Source), depsOf (commitEval s n r reads) = reads) ∧
    (∀ (df : List Penguin) (s : SessionState),
        cacheValid s s.filtered_data = false →
        depsOf (readFiltered df s).filtered_data = []) := by
  constructor
  · intro s n r reads
    simp [depsOf, commitEval, Function.comp_def]
  · intro df s h
    simp [readFiltered, h, commitEval, depsOf, fdEvaluator]

/-- Closed witness for C7: a concrete commit and a concrete read. -/
theorem claim_C7_witness :
    depsOf (commitEval initState initNode (Except.ok (Artifact.dataFrame []))
        [Source.fdNode]) = [Source.fdNode] ∧
    depsOf (readFiltered [] initState).filtered_data = [] :=
  ⟨claim_C7.1 initState initNode (Except.ok (Artifact.dataFrame [])) [Source.fdNode],
   claim_C7.2 [] initState (by decide)⟩

/-- The cache of `filtered_data` is either absent or holds the dataset
itself — the invariant every reachable session state satisfies, since the
evaluator of `filtered_data` (src/app.py line 183) is constant. -/
def fdConsistent (df : List Penguin) (s : SessionState) : Prop :=
  s.filtered_data.cached = none ∨
  s.filtered_data.cached = some (Except.ok (Artifact.dataFrame df))

theorem readFiltered_cached (df : List Penguin) (s : SessionState)
    (h : fdConsistent df s) :
    (readFiltered df s).filtered_data.cached
      = some (Except.ok (Artifact.dataFrame df)) := by
  rcases h with h | h
  · have hv : cacheValid s s.filtered_data = false := by
      simp [cacheValid, h]
    simp [readFiltered, hv, commitEval, fdEvaluator]
  · by_cases hv : cacheValid s s.filtered_data = true
    · simp [readFiltered, hv, h]
    · have h0 : cacheValid s s.filtered_data = false := by
        cases hb : cacheValid s s.filtered_data
        · rfl
        · exact absurd hb hv
      simp [readFiltered, h0, commitEval, fdEvaluator]

theorem readFiltered_cells (df : List Penguin) (s : SessionState) :
    (readFiltered df s).cells = s.cells := by
  by_cases h : cacheValid s s.filtered_data = true
  · simp [readFiltered, h]
  · have h0 : cacheValid s s.filtered_data = false := by
      cases hb : cacheValid s s.filtered_data
      · rfl
      · exact absurd hb h
    simp [readFiltered, h0]

/-- C8: the computed node `filtered_data` is the identity on the dataset —
its evaluator returns `penguin_df` unchanged and reads no reactive source,
so every read of the node yields the same dataframe value throughout a
session. -/
theorem claim_C8 :
    (∀ df : List Penguin, fdEvaluator df = (Artifact.dataFrame df, ([] : List Source))) ∧
    (∀ (df : List Penguin) (s : SessionState), fdConsistent df s →
        (readFiltered df s).filtered_data.cached
          = some (Except.ok (Artifact.dataFrame df))) :=
  ⟨fun _ => rfl, readFiltered_cached⟩

/-- Closed witness for C8 at the initial state. -/
theorem claim_C8_witness :
    fdEvaluator [] = (Artifact.dataFrame [], ([] : List Source)) ∧
    (readFiltered [] initState).filtered_data.cached
      = some (Except.ok (Artifact.dataFrame [])) :=
  ⟨claim_C8.1 [], claim_C8.2 [] initState (Or.inl rfl)⟩

/-- C9: the artifact of the `seaborn_histogram` sink depends only on the
`seaborn_bin_count` cell — for any two session states that agree on that
cell (and satisfy the `filtered_data` invariant, with their sink caches
invalid so the render actually runs), rendering produces identical
artifacts regardless of `selected_attribute`, `plotly_bin_count` or
`selected_species_list`. -/
theorem claim_C9 (df : List Penguin) (s t : SessionState)
    (hsb : s.cells.seaborn_bin_count = t.cells.seaborn_bin_count)
    (hs : cacheValid s s.seaborn_histogram = false)
    (ht : cacheValid t t.seaborn_histogram = false)
    (hfs : fdConsistent df s) (hft : fdConsistent df t) :
    (renderSeabornHist df s).seaborn_histogram.cached =
      (renderSeabornHist df t).seaborn_histogram.cached := by
  have es := readFiltered_cached df s hfs
  have et := readFiltered_cached df t hft
  have ecs := readFiltered_cells df s
  have ect := readFiltered_cells df t
  simp [renderSeabornHist, hs, ht, es, et, ecs, ect, commitEval, dfRows, hsb]

/-- An example session state differing from the initial one in every cell
except `seaborn_bin_count`. -/
def exampleStateA : SessionState :=
  { initState with cells :=
      { initCells with
          selected_attribute := "bill_depth_mm"
          plotly_bin_count := 7
          selected_species_list := [] } }

/-- Closed witness for C9: two states differing in attribute, plotly bin
count and species selection but agreeing on the seaborn bin count. -/
theorem claim_C9_witness :
    (renderSeabornHist [] exampleStateA).seaborn_histogram.cached =
      (renderSeabornHist [] initState).seaborn_histogram.cached :=
  claim_C9 [] exampleStateA initState rfl (by decide) (by decide)
    (Or.inl rfl) (Or.inl rfl)

/-- C10: the scatterplot render filters the dataset to the rows whose
species is in the selection; an empty selection filters to the empty
dataframe, and the render still returns a scatter artifact without raising
for every selection. -/
theorem claim_C10 :
    (∀ (df : List Penguin) (species : List String),
        plotly_scatterplotRender df species = Except.ok (Artifact.plotlyScatter
          (df.filter (fun p => species.contains p.species))
          "bill_length_mm" "bill_depth_mm" "island" "species")) ∧
    (∀ df : List Penguin,
        df.filter (fun p => ([] : List String).contains p.species) = []) ∧
    (∀ (df : List Penguin) (s : SessionState),
        s.cells.selected_species_list = [] →
        cacheValid s s.plotly_scatterplot = false →
        (renderScatter df s).plotly_scatterplot.cached = some (Except.ok
          (Artifact.plotlyScatter [] "bill_length_mm" "bill_depth_mm"
            "island" "species"))) := by
  refine ⟨fun df species => rfl, fun df => ?_, fun df s hempty hv => ?_⟩
  · simp
  · simp [renderScatter, hv, commitEval, plotly_scatterplotRender, hempty]

/-- A one-row concrete dataset for the C10 witness. -/
def samplePenguin : Penguin :=
  { species := "Adelie", island := "Torgersen", bill_length_mm := 39
    bill_depth_mm := 18, flipper_length_mm := 181, body_mass_g := 3750
    sex := "male" }

/-- Closed witness for C10: the empty selection over a one-row dataset. -/
theorem claim_C10_witness :
    plotly_scatterplotRender [samplePenguin] [] = Except.ok (Artifact.plotlyScatter
      (([samplePenguin] : List Penguin).filter
        (fun p => ([] : List String).contains p.species))
      "bill_length_mm" "bill_depth_mm" "island" "species") ∧
    ([samplePenguin] : List Penguin).filter
      (fun p => ([] : List String).contains p.species) = [] ∧
    (renderScatter [samplePenguin] exampleStateA).plotly_scatterplot.cached
      = some (Except.ok (Artifact.plotlyScatter [] "bill_length_mm"
          "bill_depth_mm" "island" "species")) :=
  ⟨claim_C10.1 [samplePenguin] [],
   claim_C10.2.1 [samplePenguin],
   claim_C10.2.2 [samplePenguin] exampleStateA rfl (by decide)⟩

/-- C5: a `set` with a value violating the cell's declared constraints
(type, enumerated choices, numeric bounds) fails with `InvalidInputError`
and produces no mutated store — the cell's value and version are unchanged;
a `set` with a valid value commits the value and increments the cell's
version.  (The numeric input `plotly_bin_count` declares no bounds in
src/app.py line 87, so for that cell only the type constraint applies.) -/
theorem claim_C5 (cs : CellStore) (c : CellId) (v : Value) :
    (cellValid c v = false → setCell cs c v = Except.error RError.invalidInputError) ∧
    (cellValid c v = true → ∃ cs2, setCell cs c v = Except.ok cs2 ∧
        cellValue cs2 c = v ∧ cellVersion cs2 c = cellVersion cs c + 1) := by
  constructor
  · intro h
    simp [setCell, h]
  · intro h
    refine ⟨commitCell cs c v, by simp [setCell, h], ?_, ?_⟩
    · cases c <;> cases v <;> simp_all [cellValid, commitCell, cellValue]
    · cases c <;> cases v <;> simp_all [cellValid, commitCell, cellVersion]

/-- Closed witness for C5 on the slider cell: 25 is out of the declared
2..20 range and is rejected, 5 is in range and commits with a version
bump. -/
theorem claim_C5_witness :
    setCell initCells CellId.seaborn_bin_count (Value.int 25)
      = Except.error RError.invalidInputError ∧
    ∃ cs2, setCell initCells CellId.seaborn_bin_count (Value.int 5) = Except.ok cs2 ∧
      cellValue cs2 CellId.seaborn_bin_count = Value.int 5 ∧
      cellVersion cs2 CellId.seaborn_bin_count
        = cellVersion initCells CellId.seaborn_bin_count + 1 :=
  ⟨(claim_C5 initCells CellId.seaborn_bin_count (Value.int 25)).1 (by decide),
   (claim_C5 initCells CellId.seaborn_bin_count (Value.int 5)).2 (by decide)⟩

theorem markDirty_cells (s : SessionState) (ch : List CellId) :
    (markDirty s ch).cells = s.cells := rfl

theorem markDirty_plot1_cached (s : SessionState) (ch : List CellId) :
    (markDirty s ch).plot1.cached = s.plot1.cached := by
  simp only [markDirty]
  split <;> rfl

theorem cacheValid_none (s : SessionState) (n : NodeState) (h : n.cached = none) :
    cacheValid s n = false := by
  simp [cacheValid, h]

theorem renderPlot1_dirty (df : List Penguin) (s : SessionState)
    (h : cacheValid s s.plot1 = false) :
    (renderPlot1 df s).plot1.cached
      = some (plot1Render df s.cells.selected_attribute s.cells.plotly_bin_count) := by
  simp [renderPlot1, h, commitEval]

/-- C3: a batch that sets both `selected_attribute` and `plotly_bin_count`
applies all its writes and invalidates dependents before any dependent is
next read: the read of `plot1` after the batch settles is rendered from the
new value of both cells — never from a mix of pre- and post-batch values. -/
theorem claim_C3 (df : List Penguin) (s : SessionState) (a : String) (b : Int)
    (ha : attributeChoices.contains a = true)
    (hwf : depsOf s.plot1 = [Source.cell CellId.selected_attribute,
        Source.cell CellId.plotly_bin_count] ∨ s.plot1.cached = none) :
    (runBatch s [(CellId.selected_attribute, Value.str a),
        (CellId.plotly_bin_count, Value.int b)]).cells.selected_attribute = a ∧
    (runBatch s [(CellId.selected_attribute, Value.str a),
        (CellId.plotly_bin_count, Value.int b)]).cells.plotly_bin_count = b ∧
    (renderPlot1 df (runBatch s [(CellId.selected_attribute, Value.str a),
        (CellId.plotly_bin_count, Value.int b)])).plot1.cached
      = some (plot1Render df a b) := by
  have hv : cellValid CellId.selected_attribute (Value.str a) = true := ha
  have ham : a ∈ attributeChoices := by simpa using ha
  have hb : runBatch s [(CellId.selected_attribute, Value.str a),
      (CellId.plotly_bin_count, Value.int b)]
    = markDirty { s with cells := commitCell (commitCell s.cells CellId.selected_attribute (Value.str a)) CellId.plotly_bin_count (Value.int b) } [CellId.plotly_bin_count, CellId.selected_attribute] := by
    simp [runBatch, setCell, hv, cellValid, ham]
  rw [hb]
  have hcv : cacheValid
      (markDirty { s with cells := commitCell (commitCell s.cells CellId.selected_attribute (Value.str a)) CellId.plotly_bin_count (Value.int b) } [CellId.plotly_bin_count, CellId.selected_attribute])
      (markDirty { s with cells := commitCell (commitCell s.cells CellId.selected_attribute (Value.str a)) CellId.plotly_bin_count (Value.int b) } [CellId.plotly_bin_count, CellId.selected_attribute]).plot1 = false := by
    rcases hwf with h1 | h1
    · simp [markDirty, cacheValid, h1, hitSource]
    · exact cacheValid_none _ _ (by rw [markDirty_plot1_cached]; exact h1)
  refine ⟨?_, ?_, ?_⟩
  · rw [markDirty_cells]; simp [commitCell]
  · rw [markDirty_cells]; simp [commitCell]
  · rw [renderPlot1_dirty df _ hcv, markDirty_cells]
    simp [commitCell]

/-- Closed witness for C3: from the fresh session, a batch setting the
attribute to "bill_depth_mm" and the plotly bin count to 7. -/
theorem claim_C3_witness :
    (runBatch initState [(CellId.selected_attribute, Value.str "bill_depth_mm"),
        (CellId.plotly_bin_count, Value.int 7)]).cells.selected_attribute
      = "bill_depth_mm" ∧
    (runBatch initState [(CellId.selected_attribute, Value.str "bill_depth_mm"),
        (CellId.plotly_bin_count, Value.int 7)]).cells.plotly_bin_count = 7 ∧
    (renderPlot1 [] (runBatch initState
        [(CellId.selected_attribute, Value.str "bill_depth_mm"),
         (CellId.plotly_bin_count, Value.int 7)])).plot1.cached
      = some (plot1Render [] "bill_depth_mm" 7) :=
  claim_C3 [] initState "bill_depth_mm" 7 (by decide) (Or.inr rfl)

/-- Closed form of the session after the settled start is followed by a
batch setting `seaborn_bin_count` to a valid value `v`: both dependents
(`plot2` and `seaborn_histogram`) are marked dirty, nothing else changes. -/
def batched4 (df : List Penguin) (v : Int) : SessionState :=
  { settled0 df with
    cells := { initCells with seaborn_bin_count := v, verSBin := 1 }
    plot2 := { (settled0 df).plot2 with dirty := true }
    seaborn_histogram := { (settled0 df).seaborn_histogram with dirty := true } }

theorem runBatch_sbin (df : List Penguin) (v : Int) (h2 : 2 ≤ v) (h20 : v ≤ 20) :
    runBatch (settled0 df) [(CellId.seaborn_bin_count, Value.int v)] = batched4 df v := by
  have hv : cellValid CellId.seaborn_bin_count (Value.int v) = true := by
    simp [cellValid, h2, h20]
  simp only [runBatch, List.foldl_cons, List.foldl_nil, setCell, hv, if_true]
  rfl

/-- Closed form after the panels settle again: each of the two dependents of
`seaborn_bin_count` has re-rendered exactly once. -/
def settled4 (df : List Penguin) (v : Int) : SessionState :=
  { batched4 df v with
    plot2 :=
      { cached := some (Except.ok (Artifact.seabornHistogram df "bill_length_mm" v
          "Penguins" "bill_length_mm" "Count"))
        stamps := [(Source.cell CellId.selected_attribute, 0),
                   (Source.cell CellId.seaborn_bin_count, 1)]
        dirty := false, evalCount := 2, nver := 2 }
    seaborn_histogram :=
      { cached := some (Except.ok (Artifact.seabornHistogram df "body_mass_g" v
          "Palmer Penguins" "Mass (g)" "Count"))
        stamps := [(Source.fdNode, 1), (Source.cell CellId.seaborn_bin_count, 1)]
        dirty := false, evalCount := 2, nver := 2 } }

theorem settle_batched4 (df : List Penguin) (v : Int) (h2 : 2 ≤ v) :
    settleAll df (batched4 df v) = settled4 df v := by
  have hlt : ¬ (v < 2) := not_lt.mpr h2
  have hp2 : plot2Render df "bill_length_mm" v = Except.ok (Artifact.seabornHistogram df
      "bill_length_mm" v "Penguins" "bill_length_mm" "Count") := by
    simp [plot2Render, hlt]
  have hsh : seaborn_histogramRender df v = Except.ok (Artifact.seabornHistogram df
      "body_mass_g" v "Palmer Penguins" "Mass (g)" "Count") := by
    simp [seaborn_histogramRender, hlt]
  show renderSeabornHist df (renderScatter df (renderPlot2 df (renderPlot1 df
    (batched4 df v)))) = settled4 df v
  rw [show renderPlot1 df (batched4 df v) = batched4 df v from rfl]
  simp only [renderPlot2, renderScatter, renderSeabornHist, readFiltered, cacheValid,
    commitEval, sourceVersion, cellVersion, depsOf, dfRows, fdEvaluator, batched4,
    settled4, settled0, initCells, hp2, hsh]
  norm_num
  exact ⟨hsh, by rw [hsh]⟩

theorem settle_settled4 (df : List Penguin) (v : Int) :
    settleAll df (settled4 df v) = settled4 df v := rfl

/-- C4: `plot2` and `seaborn_histogram` both read `seaborn_bin_count`; one
change to that cell in one batch triggers exactly one re-evaluation of each
of the two dependents when the panels settle, the unrelated computed node
`filtered_data` is not re-evaluated, and a further settle with no new writes
re-evaluates nothing. -/
theorem claim_C4 (df : List Penguin) (v : Int) (h2 : 2 ≤ v) (h20 : v ≤ 20) :
    (settleAll df (runBatch (settleAll df initState)
        [(CellId.seaborn_bin_count, Value.int v)])).plot2.evalCount
      = (settleAll df initState).plot2.evalCount + 1 ∧
    (settleAll df (runBatch (settleAll df initState)
        [(CellId.seaborn_bin_count, Value.int v)])).seaborn_histogram.evalCount
      = (settleAll df initState).seaborn_histogram.evalCount + 1 ∧
    (settleAll df (runBatch (settleAll df initState)
        [(CellId.seaborn_bin_count, Value.int v)])).filtered_data.evalCount
      = (settleAll df initState).filtered_data.evalCount ∧
    settleAll df (settleAll df (runBatch (settleAll df initState)
        [(CellId.seaborn_bin_count, Value.int v)]))
      = settleAll df (runBatch (settleAll df initState)
          [(CellId.seaborn_bin_count, Value.int v)]) := by
  rw [settleAll_init, runBatch_sbin df v h2 h20, settle_batched4 df v h2,
    settle_settled4]
  exact ⟨rfl, rfl, rfl, rfl⟩

/-- Closed witness for C4 at bin count 5. -/
theorem claim_C4_witness :
    (settleAll [] (runBatch (settleAll [] initState)
        [(CellId.seaborn_bin_count, Value.int 5)])).plot2.evalCount
      = (settleAll [] initState).plot2.evalCount + 1 ∧
    (settleAll [] (runBatch (settleAll [] initState)
        [(CellId.seaborn_bin_count, Value.int 5)])).seaborn_histogram.evalCount
      = (settleAll [] initState).seaborn_histogram.evalCount + 1 ∧
    (settleAll [] (runBatch (settleAll [] initState)
        [(CellId.seaborn_bin_count, Value.int 5)])).filtered_data.evalCount
      = (settleAll [] initState).filtered_data.evalCount ∧
    settleAll [] (settleAll [] (runBatch (settleAll [] initState)
        [(CellId.seaborn_bin_count, Value.int 5)]))
      = settleAll [] (runBatch (settleAll [] initState)
          [(CellId.seaborn_bin_count, Value.int 5)]) :=
  claim_C4 [] 5 (by decide) (by decide)

set_option maxHeartbeats 2000000 in
/-- C6: setting `plotly_bin_count` to 0 (the numeric input declares no
bounds, so the set commits) makes the `plot1` evaluator raise; the failure
is captured and re-surfaced as the same `EvaluationError` to a subsequent
reader without re-running the evaluator, while `plotly_scatterplot`, which
has no dependency on the failed node, renders its artifact successfully
with no extra evaluation; a later upstream change (bin count back to 20)
triggers re-evaluation and clears the error. -/
theorem claim_C6 (df : List Penguin) :
    (renderPlot1 df (runBatch (settleAll df initState)
        [(CellId.plotly_bin_count, Value.int 0)])).plot1.cached
      = some (Except.error (RError.evaluationError "histogram bin count below 2")) ∧
    (renderPlot1 df (runBatch (settleAll df initState)
        [(CellId.plotly_bin_count, Value.int 0)])).plot1.evalCount
      = (settleAll df initState).plot1.evalCount + 1 ∧
    renderPlot1 df (renderPlot1 df (runBatch (settleAll df initState)
        [(CellId.plotly_bin_count, Value.int 0)]))
      = renderPlot1 df (runBatch (settleAll df initState)
          [(CellId.plotly_bin_count, Value.int 0)]) ∧
    (renderScatter df (renderPlot1 df (runBatch (settleAll df initState)
        [(CellId.plotly_bin_count, Value.int 0)]))).plotly_scatterplot.cached
      = some (Except.ok (Artifact.plotlyScatter
          (df.filter (fun p => (["Adelie"] : List String).contains p.species))
          "bill_length_mm" "bill_depth_mm" "island" "species")) ∧
    (renderScatter df (renderPlot1 df (runBatch (settleAll df initState)
        [(CellId.plotly_bin_count, Value.int 0)]))).plotly_scatterplot.evalCount
      = (settleAll df initState).plotly_scatterplot.evalCount ∧
    (renderPlot1 df (runBatch (renderPlot1 df (runBatch (settleAll df initState)
        [(CellId.plotly_bin_count, Value.int 0)]))
        [(CellId.plotly_bin_count, Value.int 20)])).plot1.cached
      = some (Except.ok (Artifact.plotlyHistogram df "bill_length_mm" 20
          "Penguins" "count" "bill_length_mm")) ∧
    (renderPlot1 df (runBatch (renderPlot1 df (runBatch (settleAll df initState)
        [(CellId.plotly_bin_count, Value.int 0)]))
        [(CellId.plotly_bin_count, Value.int 20)])).plot1.evalCount
      = (renderPlot1 df (runBatch (settleAll df initState)
          [(CellId.plotly_bin_count, Value.int 0)])).plot1.evalCount + 1 := by
  rw [settleAll_init]
  exact ⟨rfl, rfl, rfl, rfl, rfl, rfl, rfl⟩

end PenguinApp
